import Mathlib

/-!
Verification of the ai-debate-tool repository against its specification.

Each Python function referenced by the claims is shallow-embedded as an
executable Lean definition translated from the source under
src/src/ai_debate_tool/.  Machine integers are modelled as Int/Nat
(Python ints are unbounded, so no overflow modelling is needed), the
Python floats appearing in the plan reviser are modelled as exact
rationals (every value compared at the decided boundaries is a dyadic
rational, where float and rational semantics agree), and fallible code
returns Option/Except.  String primitives are modelled on the character
list underlying Lean strings so that every definition reduces inside the
kernel; the repository only ever feeds ASCII text to the case-folding
and stripping helpers, where these models agree with Python str.lower
and str.strip.
-/

/- ───────────────────────── shared string helpers ───────────────────────── -/

/-- Python substring membership test on character lists:
true when the first list occurs contiguously inside the second. -/
def subStrOf (needle : List Char) : List Char → Bool
  | [] => needle.isEmpty
  | c :: t => needle.isPrefixOf (c :: t) || subStrOf needle t

/-- Models the Python expression (needle in hay) for strings. -/
def strContains (hay needle : String) : Bool :=
  subStrOf needle.toList hay.toList

/-- Models Python str.lower (ASCII case folding, as used by the repository). -/
def pyLower (s : String) : String :=
  String.mk (s.toList.map Char.toLower)

/-- Models Python str.strip: removes whitespace from both ends. -/
def pyStrip (s : String) : String :=
  String.mk (((s.toList.dropWhile Char.isWhitespace).reverse.dropWhile
    Char.isWhitespace).reverse)

/-- Kernel-reducible prefix test for strings. -/
def strStartsWith (s pre : String) : Bool :=
  pre.toList.isPrefixOf s.toList

/-- Kernel-reducible suffix test for strings. -/
def strEndsWith (s post : String) : Bool :=
  post.toList.reverse.isPrefixOf s.toList.reverse

/-- Characters of a string after dropping the first n. -/
def strDropChars (s : String) (n : Nat) : String :=
  String.mk (s.toList.drop n)

/-- Lexicographic order on character lists by code point. -/
def charListLt : List Char → List Char → Bool
  | [], [] => false
  | [], _ :: _ => true
  | _ :: _, [] => false
  | a :: as, b :: bs =>
    a.toNat < b.toNat || (a.toNat = b.toNat && charListLt as bs)

/-- Python string comparison a < b: lexicographic by code point, which is
also the order Lean's String instLT denotes. -/
def pyStrLt (a b : String) : Bool :=
  charListLt a.toList b.toList

/- ─────────────── services/priority_scorer.py : PriorityScorer ─────────────── -/

namespace PriorityScorer

/-- SEVERITY_SCORES dict from priority_scorer.py (max 40 points). -/
def SEVERITY_SCORES (s : String) : Option Int :=
  if s = "critical" then some 40
  else if s = "high" then some 30
  else if s = "medium" then some 20
  else if s = "low" then some 10
  else none

/-- IMPACT_SCORES dict from priority_scorer.py (max 40 points). -/
def IMPACT_SCORES (s : String) : Option Int :=
  if s = "high" then some 40
  else if s = "medium" then some 25
  else if s = "low" then some 10
  else none

/-- EFFORT_PENALTY dict from priority_scorer.py (inverse, less effort = higher priority). -/
def EFFORT_PENALTY (s : String) : Option Int :=
  if s = "low" then some 0
  else if s = "medium" then some (-10)
  else if s = "high" then some (-20)
  else none

/-- THRESHOLDS dict from priority_scorer.py. -/
def THRESHOLDS (k : String) : Int :=
  if k = "stop_ship" then 85
  else if k = "high" then 65
  else if k = "medium" then 50
  else 0

/-- PriorityScorer.score_issue: lowercases the inputs, looks up the three
contribution tables (a ValueError on a failed lookup is modelled as none),
sums them, and picks the label by the THRESHOLDS bands. -/
def score_issue (severity impact effort : String) : Option (Int × String) :=
  match SEVERITY_SCORES (pyLower severity), IMPACT_SCORES (pyLower impact),
      EFFORT_PENALTY (pyLower effort) with
  | some sv, some iv, some ev =>
    some (sv + iv + ev,
      if THRESHOLDS "stop_ship" ≤ sv + iv + ev then "🔴 STOP-SHIP"
      else if THRESHOLDS "high" ≤ sv + iv + ev then "🟠 HIGH"
      else if THRESHOLDS "medium" ≤ sv + iv + ev then "🟡 MEDIUM"
      else "⚪ LOW")
  | _, _, _ => none

/-- Band-selection function written from the specification's words
(label by bands: at least 85 stop_ship, at least 65 high, at least 50
medium, else low), used to compare the code's label against the spec. -/
def labelBandsSpec (score : Int) : String :=
  if 85 ≤ score then "🔴 STOP-SHIP"
  else if 65 ≤ score then "🟠 HIGH"
  else if 50 ≤ score then "🟡 MEDIUM"
  else "⚪ LOW"

end PriorityScorer

/- ──────────────── enforcement_gate.py : complexity and gating ──────────────── -/

namespace EnforcementGate

/-- Architectural keyword list from _calculate_placeholder_complexity. -/
def architectural_keywords : List String :=
  ["refactor", "redesign", "migrate", "architecture", "authentication",
   "authorization", "security", "database", "api", "schema", "jwt", "token",
   "caching", "cache", "workflow", "approval", "integration", "service",
   "infrastructure", "deployment"]

/-- Scope keyword list from _calculate_placeholder_complexity. -/
def scope_keywords : List String :=
  ["system-wide", "all", "entire", "multiple", "cross-cutting", "implement",
   "new feature", "add new"]

/-- Simple-change keyword list from _calculate_placeholder_complexity. -/
def simple_keywords : List String :=
  ["typo", "fix", "comment", "documentation", "readme"]

/-- Factor 1 of _calculate_placeholder_complexity: file-count contribution. -/
def fileCountScore (file_paths : List String) : Int :=
  if file_paths.length = 0 then 5
  else if file_paths.length = 1 then 10
  else if file_paths.length ≤ 3 then 15
  else 20

/-- Python sum(1 for kw in kws if kw in request_lower), as an Int. -/
def keywordMatches (kws : List String) (request_lower : String) : Int :=
  ((kws.filter (fun kw => strContains request_lower kw)).length : Int)

/-- The enforcement gate's placeholder complexity heuristic, translated
statement by statement from _calculate_placeholder_complexity: file-count
contribution, architectural keywords at 12 points each capped at 50, scope
keywords at 12 points each capped at 25, a +5 bonus when the substring
"add " (with a trailing space) co-occurs with an architectural keyword
(the Python for/break loop over the keyword list equals an any), a -30
floored at 0 when a simple-change keyword appears, and a final cap at 100. -/
def _calculate_placeholder_complexity (request : String) (file_paths : List String) : Int :=
  let score := fileCountScore file_paths
  let request_lower := pyLower request
  let score := score + min (keywordMatches architectural_keywords request_lower * 12) 50
  let score := score + min (keywordMatches scope_keywords request_lower * 12) 25
  let score :=
    if strContains request_lower "add " &&
        architectural_keywords.any (fun kw => strContains request_lower kw) then
      score + 5
    else score
  let score :=
    if 0 < keywordMatches simple_keywords request_lower then max 0 (score - 30)
    else score
  min score 100

/-- Closed form of the complexity heuristic following the claim's wording,
with the two deviations the code forces: the file-count contribution for
zero files is 5 (not 0), and the bonus keys on the substring "add " with a
trailing space.  The whole sum is clamped to [0,100]. -/
def complexityClaimForm (request : String) (file_paths : List String) : Int :=
  let rl := pyLower request
  max 0 (min 100
    (fileCountScore file_paths
      + min (keywordMatches architectural_keywords rl * 12) 50
      + min (keywordMatches scope_keywords rl * 12) 25
      + (if strContains rl "add " &&
            architectural_keywords.any (fun kw => strContains rl kw) then 5 else 0)
      - (if 0 < keywordMatches simple_keywords rl then 30 else 0)))

/-- Session metadata fields consulted by the enforcement gate, as read back
from session_metadata.json by read_metadata. -/
structure SessionMetadata where
  state : String
  consensus_score : Option Int
  user_override : Bool
  outcome : Option String
  deriving DecidableEq

/-- Result fields of block_execution_until_consensus that the claims
mention. -/
structure GateResult where
  can_execute : Bool
  consensus_score : Option Int
  user_override : Bool
  deriving DecidableEq

/-- Core decision of block_execution_until_consensus once the metadata has
been read: the enabled-flag shortcut, missing-session and unreadable-
metadata error paths are upstream of this state check and are not part of
the claims (they all return can_execute false except the disabled
shortcut). -/
def block_execution_until_consensus (md : SessionMetadata) : GateResult :=
  if md.state = "CONSENSUS" then
    { can_execute := true, consensus_score := md.consensus_score, user_override := false }
  else if md.state = "ESCALATION" ∧ md.user_override then
    { can_execute := true, consensus_score := md.consensus_score, user_override := true }
  else if md.state = "ESCALATION" then
    { can_execute := false, consensus_score := md.consensus_score, user_override := false }
  else
    { can_execute := false, consensus_score := md.consensus_score, user_override := false }

/-- mark_user_override: sets the override flag and the outcome in the
session metadata and writes it back. -/
def mark_user_override (md : SessionMetadata) : SessionMetadata :=
  { md with user_override := true, outcome := some "user_override" }

end EnforcementGate

/- ──────────── file_protocol.py : sequence counter and proposals ──────────── -/

namespace FileProtocol

/-- Session directory state touched by the proposal protocol: the value in
the .sequence file and the files under the session directory, as pairs of
relative path and content.  Locking is sequentialised away: every claim
here is about single-threaded call sequences. -/
structure FsState where
  seq : Nat
  files : List (String × String)
  deriving DecidableEq

/-- Python format seq:03d: decimal digits zero-padded to a minimum width
of three; wider numbers keep all their digits. -/
def pad3 (n : Nat) : String :=
  if n < 10 then "00" ++ toString n
  else if n < 100 then "0" ++ toString n
  else toString n

/-- Proposal filename round_(round_num)_seq_(seq:03d).md from write_proposal. -/
def proposalFilename (round_num sequence : Nat) : String :=
  "round_" ++ toString round_num ++ "_seq_" ++ pad3 sequence ++ ".md"

/-- get_next_sequence: reads the counter, increments it, writes it back,
and returns the new value. -/
def get_next_sequence (st : FsState) : Nat × FsState :=
  (st.seq + 1, { st with seq := st.seq + 1 })

/-- Result fields of write_proposal that the claims mention. -/
structure WriteResult where
  success : Bool
  file_path : String
  sequence : Nat
  deriving DecidableEq

/-- Store a file, overwriting any file already at that path. -/
def setFile (files : List (String × String)) (path content : String) : List (String × String) :=
  files.filter (fun p => p.fst ≠ path) ++ [(path, content)]

/-- write_proposal: rejects an ai_name outside claude/codex before touching
the sequence counter; otherwise draws the next sequence number and writes
(ai_name)/round_(round)_seq_(seq:03d).md. -/
def write_proposal (st : FsState) (ai_name : String) (round_num : Nat) (content : String) :
    WriteResult × FsState :=
  if ai_name ≠ "claude" ∧ ai_name ≠ "codex" then
    ({ success := false, file_path := "", sequence := 0 }, st)
  else
    let sequence := (get_next_sequence st).fst
    let st1 := (get_next_sequence st).snd
    let filename := proposalFilename round_num sequence
    let path := ai_name ++ "/" ++ filename
    ({ success := true, file_path := path, sequence := sequence },
      { st1 with files := setFile st1.files path content })

/-- Glob pattern round_(round_num)_seq_*.md on a filename: the fixed prefix
and the .md suffix, with the star free to match any (possibly empty)
character run in between. -/
def globMatch (round_num : Nat) (filename : String) : Bool :=
  let pre := "round_" ++ toString round_num ++ "_seq_"
  strStartsWith filename pre && strEndsWith filename ".md" &&
    decide (pre.length + ".md".length ≤ filename.length)

/-- read_proposal: validates ai_name, globs
(ai_name)/round_(round)_seq_*.md, sorts, and reads the lexicographically
last matching file.  Returns (content, file_path) on success.  Python
sorts the full paths, which share the directory prefix, so taking the
maximum under the code-point string order is the same selection. -/
def read_proposal (st : FsState) (ai_name : String) (round_num : Nat) :
    Option (String × String) :=
  if ai_name ≠ "claude" ∧ ai_name ≠ "codex" then none
  else
    let dirPre := ai_name ++ "/"
    let matching := st.files.filter (fun p =>
      strStartsWith p.fst dirPre &&
        globMatch round_num (strDropChars p.fst dirPre.length))
    match matching with
    | [] => none
    | f :: rest =>
      let latest := rest.foldl (fun acc q => if pyStrLt acc.fst q.fst then q else acc) f
      some (latest.snd, latest.fst)

end FileProtocol

/- ─────────────── services/debate_cache.py : DebateCache ─────────────── -/

namespace DebateCache

/-- One cache file: its modification time, the stored file_hash field, and
the stored response. -/
structure CacheEntry where
  mtime : Int
  file_hash : Option String
  response : String
  deriving DecidableEq

/-- The cache directory: an association from cache key to entry.  Keys are
modelled as the key_input string of _generate_cache_key; the truncated MD5
the code derives from it is treated as injective (collisions are the one
behaviour this embedding abstracts away). -/
abbrev CacheState := List (String × CacheEntry)

/-- Python truthiness of the optional file_hash argument. -/
def truthyHash : Option String → Bool
  | none => false
  | some s => !(s == "")

/-- DebateCache._generate_cache_key: key_input is the prompt, extended by
a pipe and the file hash when the hash is truthy. -/
def _generate_cache_key (prompt : String) (file_hash : Option String) : String :=
  match file_hash with
  | some h => if h = "" then prompt else prompt ++ "|" ++ h
  | none => prompt

/-- Entry stored under a key, if any. -/
def lookupEntry (c : CacheState) (k : String) : Option CacheEntry :=
  (c.find? (fun p => p.fst == k)).map Prod.snd

/-- Models cache_file.unlink(). -/
def removeEntry (c : CacheState) (k : String) : CacheState :=
  c.filter (fun p => !(p.fst == k))

/-- DebateCache.set at time now: writes the cache file for the key,
storing the hash and the response (the success path; IO errors return
False and change nothing, which no claim mentions). -/
def cacheSet (c : CacheState) (prompt : String) (response : String)
    (file_hash : Option String) (now : Int) : CacheState :=
  (_generate_cache_key prompt file_hash,
    { mtime := now, file_hash := file_hash, response := response }) ::
    removeEntry c (_generate_cache_key prompt file_hash)

/-- DebateCache.get at time now with time-to-live ttl: a missing file is a
miss; an entry older than ttl is unlinked and missed; then, if the given
hash is truthy and differs from the stored hash field, the entry is
unlinked and missed; otherwise the stored response is returned.  Returns
the result together with the cache state as get leaves it. -/
def cacheGet (c : CacheState) (prompt : String) (file_hash : Option String)
    (now ttl : Int) : Option String × CacheState :=
  match lookupEntry c (_generate_cache_key prompt file_hash) with
  | none => (none, c)
  | some e =>
    if ttl < now - e.mtime then
      (none, removeEntry c (_generate_cache_key prompt file_hash))
    else if truthyHash file_hash && !(e.file_hash == file_hash) then
      (none, removeEntry c (_generate_cache_key prompt file_hash))
    else
      (some e.response, c)

end DebateCache

/- ──────── services/decision_learner.py : safe_evaluate_condition ──────── -/

namespace DecisionLearner

/-- Python ast comparison operators: the six in SAFE_COMPARE_OPS plus the
remaining ast cmpop subclasses (Is, IsNot, In, NotIn), carried with their
Python class name. -/
inductive CmpOp where
  | lt | le | gt | ge | eq | ne
  | unsupported (pyName : String)
  deriving DecidableEq

/-- Python ast boolean operators; ast.BoolOp only ever carries And or Or,
so the SAFE_BOOL_OPS membership test in the code never fails. -/
inductive BoolOpKind where
  | andOp | orOp
  deriving DecidableEq

mutual
/-- Python ast expression nodes as ast.parse(condition, mode=eval) can
yield them: comparisons, boolean operations, constants (integer or
otherwise), names, calls, attribute accesses, and a catch-all for every
other expression class, carried with its Python class name.  Child lists
use the mutually defined PyExprList so that all recursion over the tree
is structural. -/
inductive PyExpr where
  | compare (left : PyExpr) (ops : List CmpOp) (comparators : PyExprList)
  | boolop (op : BoolOpKind) (values : PyExprList)
  | constInt (n : Int)
  | constOther (reprName : String)
  | name (id : String)
  | call (func : PyExpr) (args : PyExprList)
  | attribute (obj : PyExpr) (attr : String)
  | other (typeName : String)

/-- Lists of ast expression nodes. -/
inductive PyExprList where
  | nil
  | cons (head : PyExpr) (tail : PyExprList)
end

/-- Length of an ast child list. -/
def PyExprList.length : PyExprList → Nat
  | .nil => 0
  | .cons _ t => t.length + 1

/-- Python type(node).__name__ for the modelled nodes. -/
def nodeTypeName : PyExpr → String
  | .compare .. => "Compare"
  | .boolop .. => "BoolOp"
  | .constInt _ => "Constant"
  | .constOther _ => "Constant"
  | .name _ => "Name"
  | .call .. => "Call"
  | .attribute .. => "Attribute"
  | .other s => s

/-- Membership of an operator in SAFE_COMPARE_OPS. -/
def cmpSupported : CmpOp → Bool
  | .unsupported _ => false
  | _ => true

/-- The comparison a SAFE_COMPARE_OPS entry denotes (the unsupported case
is unreachable behind the cmpSupported guard). -/
def applyCmp : CmpOp → Int → Int → Bool
  | .lt, a, b => a < b
  | .le, a, b => a ≤ b
  | .gt, a, b => b < a
  | .ge, a, b => b ≤ a
  | .eq, a, b => a == b
  | .ne, a, b => a != b
  | .unsupported _, _, _ => false

/-- The decision learner's _get_value: integer constants evaluate to
themselves, other constants raise "Only integer constants allowed", the
name consensus evaluates to the consensus argument, any other name raises
"Unknown variable", and every other node raises "Unsupported value".
ValueError is modelled as Except.error. -/
def _get_value : PyExpr → Int → Except String Int
  | .constInt n, _ => .ok n
  | .constOther _, _ => .error "Only integer constants allowed"
  | .name id, consensus =>
    if id = "consensus" then .ok consensus
    else .error ("Unknown variable: " ++ id)
  | n, _ => .error ("Unsupported value: " ++ nodeTypeName n)

/-- The comparison-chain loop of _eval_node over
zip(node.ops, node.comparators): each operator is checked against the
whitelist before its comparator is evaluated, a failed comparison returns
False immediately (leaving the rest of the chain unevaluated), and the
right operand becomes the next left operand.  Like Python's zip, the walk
stops at the shorter of the two lists (ast always produces equal
lengths). -/
def evalChain (left : Int) (ops : List CmpOp) (comps : PyExprList)
    (consensus : Int) : Except String Bool :=
  match ops, comps with
  | [], _ => .ok true
  | _ :: _, .nil => .ok true
  | op :: restOps, .cons comp restComps =>
    match op with
    | .unsupported n => .error ("Unsupported operator: " ++ n)
    | _ =>
      match _get_value comp consensus with
      | .error e => .error e
      | .ok right =>
        if applyCmp op left right then evalChain right restOps restComps consensus
        else .ok false

mutual
/-- The decision learner's _eval_node: Compare evaluates its left operand
and runs the chain loop; BoolOp evaluates all its children (the Python
list comprehension; the first raise propagates) and applies all for And
or any for Or; every other node raises "Unsupported node". -/
def _eval_node : PyExpr → Int → Except String Bool
  | .compare left ops comparators, consensus =>
    match _get_value left consensus with
    | .error e => .error e
    | .ok l => evalChain l ops comparators consensus
  | .boolop op values, consensus =>
    match evalValues values consensus with
    | .error e => .error e
    | .ok results =>
      .ok (match op with
        | .andOp => results.all id
        | .orOp => results.any id)
  | n, _ => .error ("Unsupported node: " ++ nodeTypeName n)

/-- The BoolOp child evaluations, in order, stopping at the first error
exactly as the raising Python comprehension does. -/
def evalValues : PyExprList → Int → Except String (List Bool)
  | .nil, _ => .ok []
  | .cons v rest, consensus =>
    match _eval_node v consensus with
    | .error e => .error e
    | .ok b =>
      match evalValues rest consensus with
      | .error e => .error e
      | .ok bs => .ok (b :: bs)
end

/-- safe_evaluate_condition on an already parsed tree: every ValueError
raised by the evaluator (and, in Python, every SyntaxError from
ast.parse, which is why the quantification here is over parsed trees) is
caught and turned into False. -/
def safe_evaluate_condition (tree : PyExpr) (consensus : Int) : Bool :=
  match _eval_node tree consensus with
  | .ok b => b
  | .error _ => false

/-- True when an evaluation raised. -/
def isErr {α : Type} : Except String α → Bool
  | .error _ => true
  | .ok _ => false

mutual
/-- Whitelist of the claim: integer literals, the single name consensus,
the six safe comparison operators and the two boolean connectives;
everything else is outside the whitelist. -/
def nodeWhitelisted : PyExpr → Bool
  | .compare l ops comps =>
    nodeWhitelisted l && ops.all cmpSupported && listWhitelisted comps
  | .boolop _ vs => listWhitelisted vs
  | .constInt _ => true
  | .name id => id == "consensus"
  | _ => false

/-- Whitelist check over an ast child list. -/
def listWhitelisted : PyExprList → Bool
  | .nil => true
  | .cons v r => nodeWhitelisted v && listWhitelisted r
end

end DecisionLearner

/- ──── services/iterative_debate_engine.py : best-result tracking ──── -/

namespace IterativeDebateEngine

/-- One completed iteration: its consensus score, its 1-based iteration
number, and its debate result (abstracted to an identifying payload). -/
structure IterationOutcome where
  consensus : Int
  iteration : Nat
  result : String
  deriving DecidableEq

/-- The engine's best-result fields. -/
structure BestState where
  best_result : String
  best_consensus : Int
  best_iteration : Nat
  deriving DecidableEq

/-- IterativeDebateEngine._update_best_result: replaces the stored best
only on a strict improvement and reports whether it did.  (The is_best
flags it also rewrites in the history list carry no information beyond
the returned flag and the best_iteration field.) -/
def _update_best_result (s : BestState) (o : IterationOutcome) : BestState × Bool :=
  if s.best_consensus < o.consensus then
    ({ best_result := o.result, best_consensus := o.consensus,
       best_iteration := o.iteration }, true)
  else (s, false)

/-- The first iteration of run_iterative_debate is saved as the initial
best result unconditionally. -/
def initialBest (first : IterationOutcome) : BestState :=
  { best_result := first.result, best_consensus := first.consensus,
    best_iteration := first.iteration }

/-- The best-result state after iteration 1 and the given later
iterations, in order, as run_iterative_debate folds _update_best_result
over them. -/
def bestAfter (first : IterationOutcome) (later : List IterationOutcome) : BestState :=
  later.foldl (fun s o => (_update_best_result s o).fst) (initialBest first)

end IterativeDebateEngine

/- ─────────────── services/fast_moderator.py : FastModerator ─────────────── -/

namespace FastModerator

/-- Agreement thresholds on the score difference. -/
def STRONG_AGREEMENT_THRESHOLD : Nat := 10

/-- Threshold below which the agreement is still moderate. -/
def MODERATE_AGREEMENT_THRESHOLD : Nat := 20

/-- Consensus threshold for confident recommendations. -/
def PROCEED_CONFIDENTLY : Nat := 85

/-- Consensus threshold for cautious recommendations. -/
def PROCEED_WITH_CAUTION : Nat := 70

/-- Consensus threshold below which discussion comes first. -/
def DISCUSS_FIRST : Nat := 50

/-- DISAGREEMENT_KEYWORDS from fast_moderator.py. -/
def DISAGREEMENT_KEYWORDS : List String :=
  ["disagree", "disagrees", "disagreement",
   "concern", "concerns", "concerned",
   "risk", "risks", "risky",
   "issue", "issues", "problem", "problems",
   "wrong", "incorrect", "mistake",
   "missing", "lacks", "incomplete",
   "alternative", "instead", "better approach"]

/-- Agreement keyword list local to _extract_agreements. -/
def agreement_keywords : List String :=
  ["agree", "agrees", "correct", "good", "excellent",
   "well-designed", "appropriate", "smart", "effective"]

/-- True on the sentence-terminating characters of the re.split pattern. -/
def isSentenceSep (c : Char) : Bool :=
  c = '.' || c = '!' || c = '?'

/-- Split a character list at every sentence separator (runs of
separators leave empty chunks, which the caller strips away, so splitting
at single separators agrees with the re.split on separator runs used by
the code). -/
def splitChunks : List Char → List (List Char)
  | [] => [[]]
  | c :: t =>
    if isSentenceSep c then [] :: splitChunks t
    else
      match splitChunks t with
      | [] => [[c]]
      | h :: t2 => (c :: h) :: t2

/-- FastModerator._split_sentences: split on periods, question marks and
exclamation marks, strip each piece, keep the non-empty ones. -/
def _split_sentences (text : String) : List String :=
  ((splitChunks text.toList).map (fun cs => pyStrip (String.mk cs))).filter
    (fun s => s ≠ "")

/-- FastModerator._contains_disagreement_keyword. -/
def _contains_disagreement_keyword (sentence : String) : Bool :=
  DISAGREEMENT_KEYWORDS.any (fun kw => strContains (pyLower sentence) kw)

/-- FastModerator._extract_disagreements: keyword-bearing sentences from
Claude then from Codex, as (source, text) pairs, limited to the first
five. -/
def _extract_disagreements (claude_text codex_text : String) : List (String × String) :=
  (((_split_sentences claude_text).filter _contains_disagreement_keyword).map
      (fun s => ("Claude", pyStrip s)) ++
    ((_split_sentences codex_text).filter _contains_disagreement_keyword).map
      (fun s => ("Codex", pyStrip s))).take 5

/-- FastModerator._extract_agreements: agreement-keyword sentences from
Claude, then those from Codex not already present, limited to five. -/
def _extract_agreements (claude_text codex_text : String) : List String :=
  let base := ((_split_sentences claude_text).filter
    (fun s => agreement_keywords.any (fun kw => strContains (pyLower s) kw))).map pyStrip
  let final := (_split_sentences codex_text).foldl
    (fun acc s =>
      if agreement_keywords.any (fun kw => strContains (pyLower s) kw) &&
          !(acc.contains (pyStrip s)) then
        acc ++ [pyStrip s]
      else acc)
    base
  final.take 5

/-- FastModerator._determine_agreement_level. -/
def _determine_agreement_level (score_difference : Nat) : String :=
  if score_difference ≤ STRONG_AGREEMENT_THRESHOLD then "Strong Agreement"
  else if score_difference ≤ MODERATE_AGREEMENT_THRESHOLD then "Moderate Agreement"
  else "Significant Disagreements"

/-- FastModerator._generate_recommendation; pattern issues are carried as
their priority scores (the code filters the issue dicts on
priority_score, defaulting to 0, and checks the filtered list for
non-emptiness, which is the same as an any over the scores). -/
def _generate_recommendation (consensus_score : Nat) (score_difference : Nat)
    (pattern_issues : List Nat) : String :=
  if pattern_issues.any (fun i => 85 ≤ i) then "[STOP-SHIP] Critical issues found"
  else if PROCEED_CONFIDENTLY ≤ consensus_score then
    if score_difference ≤ STRONG_AGREEMENT_THRESHOLD then
      "[PROCEED CONFIDENTLY] Strong consensus"
    else "[PROCEED] Good consensus with minor concerns"
  else if PROCEED_WITH_CAUTION ≤ consensus_score then
    "[CAUTION] Address key concerns first"
  else if DISCUSS_FIRST ≤ consensus_score then
    "[DISCUSS FIRST] Resolve disagreements before proceeding"
  else "[RECONSIDER] Fundamental disagreements require rethinking"

/-- A participant result as analyze consumes it: the score (documented
range 0-100; absent keys default to 70) and the response text. -/
structure ParticipantResult where
  score : Nat
  response : String
  deriving DecidableEq

/-- The fields of the analysis dict that the claims mention
(analysis_time is wall-clock and not modelled). -/
structure ConsensusAnalysis where
  consensus_score : Nat
  interpretation : String
  recommendation : String
  score_difference : Nat
  disagreements : List (String × String)
  agreements : List String
  deriving DecidableEq

/-- FastModerator.analyze: consensus is the floor average of the two
scores (Python floor division //2; Nat division is the same floor on the
documented 0-100 score range), the difference is the absolute score gap,
and interpretation, recommendation, disagreements and agreements are
produced by the helpers above. -/
def analyze (claude_result codex_result : ParticipantResult)
    (pattern_issues : List Nat) : ConsensusAnalysis :=
  let consensus_score := (claude_result.score + codex_result.score) / 2
  let score_difference :=
    max claude_result.score codex_result.score -
      min claude_result.score codex_result.score
  { consensus_score := consensus_score,
    interpretation := _determine_agreement_level score_difference,
    recommendation :=
      _generate_recommendation consensus_score score_difference pattern_issues,
    score_difference := score_difference,
    disagreements :=
      _extract_disagreements claude_result.response codex_result.response,
    agreements :=
      _extract_agreements claude_result.response codex_result.response }

end FastModerator

/- ─────────────── services/plan_reviser.py : PlanReviser ─────────────── -/

namespace PlanReviser

/-- Split a character list at every occurrence of a separator character. -/
def splitOnChar (sep : Char) : List Char → List (List Char)
  | [] => [[]]
  | c :: t =>
    if c = sep then [] :: splitOnChar sep t
    else
      match splitOnChar sep t with
      | [] => [[c]]
      | h :: t2 => (c :: h) :: t2

/-- Python str.splitlines for newline-separated text (the plan texts the
reviser compares use newline terminators only): split on the newline
character, and drop the final empty piece a trailing newline produces,
as splitlines does. -/
def splitlines (s : String) : List String :=
  let parts := (splitOnChar (Char.ofNat 10) s.toList).map String.mk
  if parts.getLast? = some "" then parts.dropLast else parts

/-- True when index i of a and index j of b hold equal elements. -/
def matchAt (a b : List String) (i j : Nat) : Bool :=
  match a.get? i, b.get? j with
  | some x, some y => x == y
  | _, _ => false

/-- Length of the run of pairwise-equal elements ending at index i of a
and index j of b, not reaching below alo in a or blo in b.  This is the
quantity difflib's j2len dynamic programme tracks. -/
def runLenEnd (a b : List String) (alo blo : Nat) : Nat → Nat → Nat
  | 0, j =>
    if 0 < alo || j < blo then 0
    else if matchAt a b 0 j then 1 else 0
  | i+1, 0 =>
    if i+1 < alo || 0 < blo then 0
    else if matchAt a b (i+1) 0 then 1 else 0
  | i+1, j+1 =>
    if i+1 < alo || j+1 < blo then 0
    else if matchAt a b (i+1) (j+1) then runLenEnd a b alo blo i j + 1 else 0

/-- difflib SequenceMatcher.find_longest_match on junk-free input (the
line sequences compared here stay below the 200-element autojunk
threshold and contain no designated junk): scan ending positions i
ascending then j ascending, keep the first block to strictly exceed the
best size, and return its start and size.  With no junk the two
extension loops of the original are no-ops, because the block the scan
found is already maximal. -/
def findLongestMatch (a b : List String) (alo ahi blo bhi : Nat) : Nat × Nat × Nat :=
  (List.range' alo (ahi - alo)).foldl
    (fun best i =>
      (List.range' blo (bhi - blo)).foldl
        (fun best j =>
          let k := runLenEnd a b alo blo i j
          if best.2.2 < k then (i + 1 - k, j + 1 - k, k) else best)
        best)
    (alo, blo, 0)

/-- Total size of the blocks get_matching_blocks collects by recursively
splitting each region around its longest match; the merge of adjacent
blocks difflib performs afterwards preserves this total.  The fuel
argument only bounds the recursion depth and is always passed in excess
of the region size, which the depth can never exceed. -/
def matchTotal (a b : List String) : Nat → Nat → Nat → Nat → Nat → Nat
  | 0, _, _, _, _ => 0
  | fuel+1, alo, ahi, blo, bhi =>
    match findLongestMatch a b alo ahi blo bhi with
    | (i, j, k) =>
      if k = 0 then 0
      else matchTotal a b fuel alo i blo j + k +
        matchTotal a b fuel (i + k) ahi (j + k) bhi

/-- SequenceMatcher.ratio: twice the matched total over the combined
length, and 1.0 for two empty sequences. -/
def ratio (a b : List String) : ℚ :=
  if a.length + b.length = 0 then 1
  else (2 * (matchTotal a b (a.length + b.length + 1) 0 a.length 0 b.length) : ℚ) /
    (a.length + b.length)

/-- PlanReviser._calculate_change_percentage: one minus the line-level
similarity ratio, as a percentage. -/
def _calculate_change_percentage (original revised : String) : ℚ :=
  (1 - ratio (splitlines original) (splitlines revised)) * 100

/-- PlanReviser._validate_revision: reject empty or sub-100-character
revisions, unchanged revisions, changes below 1 percent and changes
above 50 percent; otherwise the revision is valid.  The reason strings
are kept without their numeric interpolations. -/
def _validate_revision (original revised : String) : Bool × String :=
  if revised = "" ∨ revised.length < 100 then
    (false, "Revision too short or empty")
  else if revised = original then
    (false, "No changes made by reviser")
  else if _calculate_change_percentage original revised < 1 then
    (false, "Changes too minimal")
  else if 50 < _calculate_change_percentage original revised then
    (false, "Plan appears to be rewritten, not revised")
  else
    (true, "")

end PlanReviser

/- ───────────────────────────── theorems ───────────────────────────── -/

/-- One _update_best_result step never decreases the stored best
consensus. -/
theorem update_best_step_mono (s : IterativeDebateEngine.BestState)
    (o : IterativeDebateEngine.IterationOutcome) :
    s.best_consensus ≤ (IterativeDebateEngine._update_best_result s o).fst.best_consensus := by
  unfold IterativeDebateEngine._update_best_result
  split_ifs with h
  · exact le_of_lt h
  · exact le_refl _

/-- Folding _update_best_result never decreases the stored best
consensus. -/
theorem bestFold_mono (l : List IterativeDebateEngine.IterationOutcome) :
    ∀ s : IterativeDebateEngine.BestState,
      s.best_consensus ≤
        (l.foldl (fun s o => (IterativeDebateEngine._update_best_result s o).fst) s).best_consensus := by
  induction l with
  | nil => intro s; exact le_refl _
  | cons o t ih =>
    intro s
    exact le_trans (update_best_step_mono s o) (ih _)

/-- Claim C1, counterexample.  The claim states that
score_issue("critical","high","low") returns (80, stop_ship) and
score_issue("high","medium","medium") returns (45, medium).  The code
returns (80, HIGH) and (45, LOW): 80 is below the stop_ship threshold 85
and 45 is below the medium threshold 50, so by the claim's own bands the
claimed labels are impossible.  (The docstring examples inside
priority_scorer.py carry the same stale labels.) -/
theorem C1_counterexample :
    PriorityScorer.score_issue "critical" "high" "low" = some (80, "🟠 HIGH") ∧
    PriorityScorer.score_issue "high" "medium" "medium" = some (45, "⚪ LOW") ∧
    "🟠 HIGH" ≠ "🔴 STOP-SHIP" ∧ "⚪ LOW" ≠ "🟡 MEDIUM" := by
  refine ⟨by decide, by decide, by decide, by decide⟩

/-- Claim C1, amended.  score_issue("critical","high","low") returns
(80, HIGH band), ("high","medium","medium") returns (45, LOW band),
("low","low","high") returns (0, LOW band); and in general, whenever
score_issue succeeds, the score equals the severity contribution plus the
impact contribution plus the effort penalty, it already lies in [0,100]
(so clamping to [0,100] is the identity on it), and the label is
determined by the bands at-least-85 stop_ship, at-least-65 high,
at-least-50 medium, else low. -/
theorem C1_amended :
    PriorityScorer.score_issue "critical" "high" "low" = some (80, "🟠 HIGH") ∧
    PriorityScorer.score_issue "high" "medium" "medium" = some (45, "⚪ LOW") ∧
    PriorityScorer.score_issue "low" "low" "high" = some (0, "⚪ LOW") ∧
    ∀ s i e v l, PriorityScorer.score_issue s i e = some (v, l) →
      (∃ sv iv ev,
        PriorityScorer.SEVERITY_SCORES (pyLower s) = some sv ∧
        PriorityScorer.IMPACT_SCORES (pyLower i) = some iv ∧
        PriorityScorer.EFFORT_PENALTY (pyLower e) = some ev ∧
        v = sv + iv + ev ∧ v = max 0 (min 100 (sv + iv + ev))) ∧
      0 ≤ v ∧ v ≤ 100 ∧ l = PriorityScorer.labelBandsSpec v := by
  refine ⟨by decide, by decide, by decide, ?_⟩
  intro s i e v l h
  unfold PriorityScorer.score_issue at h
  cases hs : PriorityScorer.SEVERITY_SCORES (pyLower s) with
  | none => rw [hs] at h; simp at h
  | some sv =>
  cases hi : PriorityScorer.IMPACT_SCORES (pyLower i) with
  | none => rw [hs, hi] at h; simp at h
  | some iv =>
  cases he : PriorityScorer.EFFORT_PENALTY (pyLower e) with
  | none => rw [hs, hi, he] at h; simp at h
  | some ev =>
  rw [hs, hi, he] at h
  simp only [Option.some.injEq, Prod.mk.injEq] at h
  obtain ⟨hv, hl⟩ := h
  have hsv : sv = 40 ∨ sv = 30 ∨ sv = 20 ∨ sv = 10 := by
    unfold PriorityScorer.SEVERITY_SCORES at hs
    split_ifs at hs <;> simp_all
  have hiv : iv = 40 ∨ iv = 25 ∨ iv = 10 := by
    unfold PriorityScorer.IMPACT_SCORES at hi
    split_ifs at hi <;> simp_all
  have hev : ev = 0 ∨ ev = -10 ∨ ev = -20 := by
    unfold PriorityScorer.EFFORT_PENALTY at he
    split_ifs at he <;> simp_all
  have hbound : 0 ≤ sv + iv + ev ∧ sv + iv + ev ≤ 100 := by
    rcases hsv with h1 | h1 | h1 | h1 <;> rcases hiv with h2 | h2 | h2 <;>
      rcases hev with h3 | h3 | h3 <;> subst h1 h2 h3 <;> norm_num
  refine ⟨⟨sv, iv, ev, rfl, rfl, rfl, hv.symm, ?_⟩, ?_, ?_, ?_⟩
  · omega
  · omega
  · omega
  · subst hv
    simp only [PriorityScorer.labelBandsSpec, PriorityScorer.THRESHOLDS] at hl ⊢
    norm_num at hl ⊢
    exact hl.symm

/-- Claim C3, counterexample.  The claim promises can_execute = true after
a user override in every lifecycle state; but in state IDLE (and likewise
in any ROUND_k state) block_execution_until_consensus falls through to the
still-debating branch and blocks even though user_override is set: the
override is only consulted in the ESCALATION branch. -/
theorem C3_counterexample :
    (EnforcementGate.block_execution_until_consensus
      (EnforcementGate.mark_user_override
        { state := "IDLE", consensus_score := some 95,
          user_override := false, outcome := none })).can_execute = false ∧
    (EnforcementGate.block_execution_until_consensus
      (EnforcementGate.mark_user_override
        { state := "ROUND_2", consensus_score := some 95,
          user_override := false, outcome := none })).can_execute = false := by
  exact ⟨by decide, by decide⟩

/-- Claim C3, amended.  After mark_user_override, a subsequent
block_execution_until_consensus returns can_execute = true exactly when
the session state is CONSENSUS or ESCALATION (in ESCALATION regardless of
the consensus score, which stays arbitrary here); in any other state,
including IDLE and ROUND_k, execution remains blocked despite the
override. -/
theorem C3_amended :
    ∀ md : EnforcementGate.SessionMetadata,
      (EnforcementGate.mark_user_override md).user_override = true ∧
      (md.state = "CONSENSUS" ∨ md.state = "ESCALATION" →
        (EnforcementGate.block_execution_until_consensus
          (EnforcementGate.mark_user_override md)).can_execute = true) ∧
      (md.state ≠ "CONSENSUS" → md.state ≠ "ESCALATION" →
        (EnforcementGate.block_execution_until_consensus
          (EnforcementGate.mark_user_override md)).can_execute = false) := by
  intro md
  refine ⟨rfl, ?_, ?_⟩ <;>
    simp only [EnforcementGate.block_execution_until_consensus,
      EnforcementGate.mark_user_override] <;>
    intros <;> split_ifs <;> simp_all

/-- Witness for C3_amended at a concrete escalated session. -/
theorem C3_amended_witness :
    (EnforcementGate.mark_user_override
      { state := "ESCALATION", consensus_score := some 10,
        user_override := false, outcome := none }).user_override = true ∧
    (EnforcementGate.block_execution_until_consensus
      (EnforcementGate.mark_user_override
        { state := "ESCALATION", consensus_score := some 10,
          user_override := false, outcome := none })).can_execute = true := by
  have h := C3_amended
    { state := "ESCALATION", consensus_score := some 10,
      user_override := false, outcome := none }
  exact ⟨h.1, h.2.1 (Or.inr rfl)⟩

/-- Claim C6, counterexample.  On an empty request with an empty file list
the heuristic returns 5, not 0: the file-count factor contributes +5 when
zero files are passed, and nothing offsets it. -/
theorem C6_counterexample :
    EnforcementGate._calculate_placeholder_complexity "" [] = 5 ∧
    EnforcementGate._calculate_placeholder_complexity "" [] ≠ 0 := by
  exact ⟨by decide, by decide⟩

/-- Claim C6, amended.  The heuristic returns 5 (not 0) on an empty
request with no files; it never exceeds 100 and never goes below 0, and
reaches 100 on keyword-laden input; and in general it equals the claimed
closed form — the file-count contribution (5, 10, 15, 20 for 0, 1, 2-3,
4-or-more files) plus 12 per architectural keyword capped at 50, plus 12
per scope keyword capped at 25, plus 5 once when the substring
"add " (with a trailing space, as the code tests) co-occurs with an
architectural keyword, minus 30 when a simple-change keyword appears,
clamped to [0,100]. -/
theorem C6_amended :
    (∀ r f, EnforcementGate._calculate_placeholder_complexity r f =
        EnforcementGate.complexityClaimForm r f ∧
      0 ≤ EnforcementGate._calculate_placeholder_complexity r f ∧
      EnforcementGate._calculate_placeholder_complexity r f ≤ 100) ∧
    EnforcementGate._calculate_placeholder_complexity "" [] = 5 ∧
    EnforcementGate._calculate_placeholder_complexity
      "add refactor migrate database api security all entire multiple"
      ["a", "b", "c", "d"] = 100 := by
  refine ⟨?_, by decide, by decide⟩
  intro r f
  have hf : 5 ≤ EnforcementGate.fileCountScore f ∧
      EnforcementGate.fileCountScore f ≤ 20 := by
    unfold EnforcementGate.fileCountScore
    split_ifs <;> omega
  have ha : (0 : Int) ≤ EnforcementGate.keywordMatches
      EnforcementGate.architectural_keywords (pyLower r) :=
    Int.natCast_nonneg _
  have hs : (0 : Int) ≤ EnforcementGate.keywordMatches
      EnforcementGate.scope_keywords (pyLower r) :=
    Int.natCast_nonneg _
  simp only [EnforcementGate._calculate_placeholder_complexity,
    EnforcementGate.complexityClaimForm]
  split_ifs <;> omega

/-- Claim C4, code bug.  From a session whose .sequence file holds 998
(reachable after 998 successful writes), writing "old" then "new" to
participant claude, round 1, consumes sequences 999 and 1000; the claim
(and the code's own comment, and the spec's overflow requirement) says
read_proposal then returns the content of the seq-1000 write, but the
lexicographically largest matching filename is round_1_seq_999.md —
"999" sorts after "1000" character by character — so the code returns
"old", the superseded write. -/
theorem C4_overflow_bug :
    (FileProtocol.write_proposal ⟨998, []⟩ "claude" 1 "old").fst.success = true ∧
    (FileProtocol.write_proposal ⟨998, []⟩ "claude" 1 "old").fst.sequence = 999 ∧
    (FileProtocol.write_proposal
      (FileProtocol.write_proposal ⟨998, []⟩ "claude" 1 "old").snd
      "claude" 1 "new").fst.success = true ∧
    (FileProtocol.write_proposal
      (FileProtocol.write_proposal ⟨998, []⟩ "claude" 1 "old").snd
      "claude" 1 "new").fst.sequence = 1000 ∧
    FileProtocol.read_proposal
      (FileProtocol.write_proposal
        (FileProtocol.write_proposal ⟨998, []⟩ "claude" 1 "old").snd
        "claude" 1 "new").snd
      "claude" 1 = some ("old", "claude/round_1_seq_999.md") := by
  exact ⟨by decide, by decide, by decide, by decide, by decide⟩

/-- Claim C10, confirmed.  write_proposal with a participant label outside
claude/codex fails before the sequence counter is touched: it returns
success = false with sequence 0, leaves the state untouched, and the next
get_next_sequence returns exactly what it would have returned without the
failed call. -/
theorem C10_invalid_participant :
    ∀ (st : FileProtocol.FsState) (ai : String) (r : Nat) (content : String),
      ai ≠ "claude" → ai ≠ "codex" →
      FileProtocol.write_proposal st ai r content =
        ({ success := false, file_path := "", sequence := 0 }, st) ∧
      (FileProtocol.get_next_sequence
        (FileProtocol.write_proposal st ai r content).snd).fst =
        (FileProtocol.get_next_sequence st).fst := by
  intro st ai r content h1 h2
  have h : FileProtocol.write_proposal st ai r content =
      ({ success := false, file_path := "", sequence := 0 }, st) := by
    unfold FileProtocol.write_proposal
    rw [if_pos ⟨h1, h2⟩]
  exact ⟨h, by rw [h]⟩

/-- Witness for C10_invalid_participant at a concrete invalid label. -/
theorem C10_invalid_participant_witness :
    FileProtocol.write_proposal ⟨7, []⟩ "gemini" 1 "x" =
      ({ success := false, file_path := "", sequence := 0 }, (⟨7, []⟩ : FileProtocol.FsState)) ∧
    (FileProtocol.get_next_sequence
      (FileProtocol.write_proposal ⟨7, []⟩ "gemini" 1 "x").snd).fst =
      (FileProtocol.get_next_sequence ⟨7, []⟩).fst :=
  C10_invalid_participant ⟨7, []⟩ "gemini" 1 "x" (by decide) (by decide)

/-- Unlinking a key removes it: a subsequent lookup of that key misses. -/
theorem lookupEntry_removeEntry_self (c : DebateCache.CacheState) (k : String) :
    DebateCache.lookupEntry (DebateCache.removeEntry c k) k = none := by
  induction c with
  | nil => rfl
  | cons p t ih =>
    simp only [DebateCache.removeEntry, List.filter_cons] at *
    cases hpk : (p.fst == k) with
    | true => simp [hpk, ih]
    | false => simp [DebateCache.lookupEntry, List.find?_cons, hpk, ih]

/-- Unlinking one key leaves every other key's entry untouched. -/
theorem lookupEntry_removeEntry_ne (c : DebateCache.CacheState) (k k' : String)
    (h : k ≠ k') :
    DebateCache.lookupEntry (DebateCache.removeEntry c k') k =
      DebateCache.lookupEntry c k := by
  induction c with
  | nil => rfl
  | cons p t ih =>
    simp only [DebateCache.removeEntry, List.filter_cons] at *
    cases hpk : (p.fst == k') with
    | true =>
      have hpk' : p.fst = k' := by simpa using hpk
      have hne : (p.fst == k) = false := by
        refine beq_false_of_ne ?_
        rw [hpk']
        exact fun hkk => h hkk.symm
      simpa [DebateCache.lookupEntry, List.find?_cons, hpk, hne] using ih
    | false =>
      cases hpkk : (p.fst == k) with
      | true => simp [DebateCache.lookupEntry, List.find?_cons, hpk, hpkk]
      | false => simpa [DebateCache.lookupEntry, List.find?_cons, hpk, hpkk] using ih

/-- Claim C2, counterexample.  The claim says that when the set hash and
the get hash differ, the stored entry has been removed by the time get
returns.  But the hash is part of the cache key, so get with a different
hash looks up a different cache file entirely: here set stores under hash
"a", get with hash "b" misses, and the entry stored under hash "a" is
still present afterwards. -/
theorem C2_counterexample :
    (DebateCache.cacheGet
      (DebateCache.cacheSet [] "p" "r" (some "a") 0) "p" (some "b") 0 5).fst = none ∧
    DebateCache.lookupEntry
      (DebateCache.cacheGet
        (DebateCache.cacheSet [] "p" "r" (some "a") 0) "p" (some "b") 0 5).snd
      (DebateCache._generate_cache_key "p" (some "a")) =
      some { mtime := 0, file_hash := some "a", response := "r" } := by
  exact ⟨by decide, by decide⟩

/-- Claim C2, amended.  After set(prompt, response, h1) at time n1, a
get(prompt, h2) at time n2 behaves as follows.  With h1 = h2: within the
TTL the stored response is returned and the cache is unchanged; past the
TTL the lookup misses and the entry has been removed.  When the two
hashes produce different cache keys, the lookup misses (on a cache with
no prior entry under the get key) but the stored entry remains — it is
not removed, contrary to the claim.  Moreover two falsy hashes (None or
empty) share one key, so such a get can also return the stored response
with h1 distinct from h2. -/
theorem C2_amended :
    ∀ (c : DebateCache.CacheState) (p resp : String) (h1 h2 : Option String)
      (n1 n2 ttl : Int),
      (h1 = h2 →
        (n2 - n1 ≤ ttl →
          DebateCache.cacheGet (DebateCache.cacheSet c p resp h1 n1) p h2 n2 ttl =
            (some resp, DebateCache.cacheSet c p resp h1 n1)) ∧
        (ttl < n2 - n1 →
          (DebateCache.cacheGet (DebateCache.cacheSet c p resp h1 n1) p h2 n2 ttl).fst
            = none ∧
          DebateCache.lookupEntry
            (DebateCache.cacheGet (DebateCache.cacheSet c p resp h1 n1) p h2 n2 ttl).snd
            (DebateCache._generate_cache_key p h1) = none)) ∧
      (DebateCache.truthyHash h1 = false → DebateCache.truthyHash h2 = false →
        n2 - n1 ≤ ttl →
        DebateCache.cacheGet (DebateCache.cacheSet c p resp h1 n1) p h2 n2 ttl =
          (some resp, DebateCache.cacheSet c p resp h1 n1)) ∧
      (DebateCache._generate_cache_key p h1 ≠ DebateCache._generate_cache_key p h2 →
        DebateCache.lookupEntry
          (DebateCache.cacheGet (DebateCache.cacheSet c p resp h1 n1) p h2 n2 ttl).snd
          (DebateCache._generate_cache_key p h1) =
          some { mtime := n1, file_hash := h1, response := resp } ∧
        (DebateCache.lookupEntry c (DebateCache._generate_cache_key p h2) = none →
          (DebateCache.cacheGet (DebateCache.cacheSet c p resp h1 n1) p h2 n2 ttl).fst
            = none)) := by
  intro c p resp h1 h2 n1 n2 ttl
  refine ⟨?_, ?_, ?_⟩
  · rintro rfl
    constructor
    · intro httl
      have hlook : DebateCache.lookupEntry
          (DebateCache.cacheSet c p resp h1 n1)
          (DebateCache._generate_cache_key p h1) =
          some { mtime := n1, file_hash := h1, response := resp } := by
        simp [DebateCache.cacheSet, DebateCache.lookupEntry, List.find?_cons]
      simp only [DebateCache.cacheGet, hlook]
      rw [if_neg (by omega)]
      simp
    · intro httl
      have hlook : DebateCache.lookupEntry
          (DebateCache.cacheSet c p resp h1 n1)
          (DebateCache._generate_cache_key p h1) =
          some { mtime := n1, file_hash := h1, response := resp } := by
        simp [DebateCache.cacheSet, DebateCache.lookupEntry, List.find?_cons]
      simp only [DebateCache.cacheGet, hlook]
      rw [if_pos (by omega)]
      exact ⟨rfl, lookupEntry_removeEntry_self _ _⟩
  · intro hf1 hf2 httl
    have hkey : DebateCache._generate_cache_key p h2 =
        DebateCache._generate_cache_key p h1 := by
      cases h1 with
      | none => cases h2 with
        | none => rfl
        | some s =>
          simp only [DebateCache.truthyHash, Bool.not_eq_false', beq_iff_eq] at hf2
          simp [DebateCache._generate_cache_key, hf2]
      | some s1 =>
        simp only [DebateCache.truthyHash, Bool.not_eq_false', beq_iff_eq] at hf1
        cases h2 with
        | none => simp [DebateCache._generate_cache_key, hf1]
        | some s2 =>
          simp only [DebateCache.truthyHash, Bool.not_eq_false', beq_iff_eq] at hf2
          simp [DebateCache._generate_cache_key, hf1, hf2]
    have hlook : DebateCache.lookupEntry
        (DebateCache.cacheSet c p resp h1 n1)
        (DebateCache._generate_cache_key p h2) =
        some { mtime := n1, file_hash := h1, response := resp } := by
      rw [hkey]
      simp [DebateCache.cacheSet, DebateCache.lookupEntry, List.find?_cons]
    simp only [DebateCache.cacheGet, hlook]
    rw [if_neg (by omega)]
    simp [hf2]
  · intro hne
    have hlook1 : DebateCache.lookupEntry
        (DebateCache.cacheSet c p resp h1 n1)
        (DebateCache._generate_cache_key p h1) =
        some { mtime := n1, file_hash := h1, response := resp } := by
      simp [DebateCache.cacheSet, DebateCache.lookupEntry, List.find?_cons]
    have hpass : DebateCache.lookupEntry
        (DebateCache.cacheSet c p resp h1 n1)
        (DebateCache._generate_cache_key p h2) =
        DebateCache.lookupEntry c (DebateCache._generate_cache_key p h2) := by
      simp only [DebateCache.cacheSet, DebateCache.lookupEntry, List.find?_cons]
      rw [show ((DebateCache._generate_cache_key p h1 ==
          DebateCache._generate_cache_key p h2)) = false from
        beq_false_of_ne hne]
      exact congrArg (Option.map Prod.snd)
        (congrArg (List.find? _)
          (by rfl)) |>.trans
        (congrArg (Option.map Prod.snd) rfl) |>.trans
        (lookupEntry_removeEntry_ne c _ _ (Ne.symm hne))
    constructor
    · cases hc2 : DebateCache.lookupEntry
          (DebateCache.cacheSet c p resp h1 n1)
          (DebateCache._generate_cache_key p h2) with
      | none =>
        simp only [DebateCache.cacheGet, hc2]
        exact hlook1
      | some e =>
        simp only [DebateCache.cacheGet, hc2]
        split_ifs with hexp hver
        · exact (lookupEntry_removeEntry_ne _ _ _ hne).trans hlook1
        · exact (lookupEntry_removeEntry_ne _ _ _ hne).trans hlook1
        · exact hlook1
    · intro hmiss
      have : DebateCache.lookupEntry
          (DebateCache.cacheSet c p resp h1 n1)
          (DebateCache._generate_cache_key p h2) = none :=
        hpass.trans hmiss
      simp [DebateCache.cacheGet, this]

/-- Witness for C2_amended: a same-hash get within the TTL returns the
stored response and leaves the cache unchanged. -/
theorem C2_amended_witness :
    DebateCache.cacheGet
      (DebateCache.cacheSet [] "p" "r" (some "a") 0) "p" (some "a") 0 5 =
      (some "r", DebateCache.cacheSet [] "p" "r" (some "a") 0) :=
  ((C2_amended [] "p" "r" (some "a") (some "a") 0 0 5).1 rfl).1 (by norm_num)

/-- A comparison chain whose operator list contains a non-whitelisted
operator within range of the comparators either raises or returns False:
the chain checks each operator before evaluating its comparator and can
only skip the bad operator by returning False early. -/
theorem evalChain_unsupported_any :
    ∀ (ops : List DecisionLearner.CmpOp) (comps : DecisionLearner.PyExprList)
      (left c : Int),
      comps.length = ops.length →
      ops.any (fun o => !DecisionLearner.cmpSupported o) = true →
      DecisionLearner.isErr (DecisionLearner.evalChain left ops comps c) = true ∨
        DecisionLearner.evalChain left ops comps c = .ok false := by
  intro ops
  induction ops with
  | nil => intro comps left c _ hany; simp at hany
  | cons op rest ih =>
    intro comps left c hlen hany
    cases comps with
    | nil => simp [DecisionLearner.PyExprList.length] at hlen
    | cons comp restC =>
      have hlen' : restC.length = rest.length := by
        simpa [DecisionLearner.PyExprList.length] using hlen
      cases op <;>
        first
        | exact Or.inl rfl
        | · simp only [List.any_cons, DecisionLearner.cmpSupported,
              Bool.not_true, Bool.false_or] at hany
            cases hg : DecisionLearner._get_value comp c with
            | error e =>
              exact Or.inl (by simp [DecisionLearner.evalChain, hg, DecisionLearner.isErr])
            | ok right =>
              simp only [DecisionLearner.evalChain, hg]
              split_ifs with happ
              · exact ih restC right c hlen' hany
              · exact Or.inr rfl

/-- Claim C5, counterexample.  The tree of the condition
"consensus >= 0 or 1 > 2 < x" contains the name x, which is outside the
whitelist; yet safe_evaluate_condition returns true at consensus 0,
because the comparison 1 > 2 is false and returns the second disjunct
False before the evaluator ever reaches x, and the first disjunct makes
the or true.  So the evaluator does not return false for every condition
containing a non-whitelisted construct. -/
theorem C5_counterexample :
    DecisionLearner.nodeWhitelisted
      (.boolop .orOp
        (.cons (.compare (.name "consensus") [.ge] (.cons (.constInt 0) .nil))
          (.cons (.compare (.constInt 1) [.gt, .lt]
            (.cons (.constInt 2) (.cons (.name "x") .nil))) .nil))) = false ∧
    DecisionLearner.safe_evaluate_condition
      (.boolop .orOp
        (.cons (.compare (.name "consensus") [.ge] (.cons (.constInt 0) .nil))
          (.cons (.compare (.constInt 1) [.gt, .lt]
            (.cons (.constInt 2) (.cons (.name "x") .nil))) .nil))) 0 = true :=
  ⟨rfl, rfl⟩

/-- Claim C5, amended.  safe_evaluate_condition never raises — every
evaluator error is caught and yields false — and the evaluator rejects
with an error, rather than evaluating, every non-whitelisted construct it
reaches: non-integer constants, names other than consensus, calls (so no
callable derived from the condition is ever executed), attribute
accesses, and any other expression node; any tree whose root is not a
comparison or an and/or yields false, and a comparison whose operator
list contains an operator outside the six comparison operators yields
false.  Only a non-whitelisted construct sitting after an already-false
link of a comparison chain is skipped unevaluated, which is why a
condition merely containing one can still return true. -/
theorem C5_amended :
    ∀ c : Int,
      (∀ t, DecisionLearner.isErr (DecisionLearner._eval_node t c) = true →
        DecisionLearner.safe_evaluate_condition t c = false) ∧
      (∀ n : Int,
        DecisionLearner.isErr (DecisionLearner._eval_node (.constInt n) c) = true) ∧
      (∀ r, DecisionLearner.isErr (DecisionLearner._get_value (.constOther r) c) = true) ∧
      (∀ id, id ≠ "consensus" →
        DecisionLearner.isErr (DecisionLearner._get_value (.name id) c) = true) ∧
      (∀ f args,
        DecisionLearner.isErr (DecisionLearner._get_value (.call f args) c) = true ∧
        DecisionLearner.isErr (DecisionLearner._eval_node (.call f args) c) = true) ∧
      (∀ o a,
        DecisionLearner.isErr (DecisionLearner._get_value (.attribute o a) c) = true ∧
        DecisionLearner.isErr (DecisionLearner._eval_node (.attribute o a) c) = true) ∧
      (∀ s, DecisionLearner.isErr (DecisionLearner._eval_node (.other s) c) = true) ∧
      (∀ l ops comps,
        DecisionLearner.PyExprList.length comps = ops.length →
        ops.any (fun o => !DecisionLearner.cmpSupported o) = true →
        DecisionLearner.safe_evaluate_condition (.compare l ops comps) c = false) := by
  intro c
  refine ⟨?_, fun n => rfl, fun r => rfl, ?_, fun f args => ⟨rfl, rfl⟩,
    fun o a => ⟨rfl, rfl⟩, fun s => rfl, ?_⟩
  · intro t h
    unfold DecisionLearner.safe_evaluate_condition
    cases he : DecisionLearner._eval_node t c with
    | ok b => rw [he] at h; simp [DecisionLearner.isErr] at h
    | error e => rfl
  · intro id h
    have hv : DecisionLearner._get_value (.name id) c =
        if id = "consensus" then Except.ok c
        else Except.error ("Unknown variable: " ++ id) := rfl
    rw [hv, if_neg h]
    rfl
  · intro l ops comps hlen hany
    cases hgl : DecisionLearner._get_value l c with
    | error e =>
      simp [DecisionLearner.safe_evaluate_condition, DecisionLearner._eval_node, hgl]
    | ok lv =>
      rcases evalChain_unsupported_any ops comps lv c hlen hany with herr | hfalse
      · cases hec : DecisionLearner.evalChain lv ops comps c with
        | ok b => rw [hec] at herr; simp [DecisionLearner.isErr] at herr
        | error e =>
          simp [DecisionLearner.safe_evaluate_condition, DecisionLearner._eval_node,
            hgl, hec]
      · simp [DecisionLearner.safe_evaluate_condition, DecisionLearner._eval_node,
          hgl, hfalse]

/-- Witness for C5_amended: a foreign name is rejected, and a concrete
condition using the non-whitelisted operator is (1 is 1) evaluates to
false. -/
theorem C5_amended_witness :
    DecisionLearner.isErr (DecisionLearner._get_value (.name "x") 0) = true ∧
    DecisionLearner.safe_evaluate_condition
      (.compare (.constInt 1) [.unsupported "Is"] (.cons (.constInt 1) .nil)) 0
      = false := by
  have h := C5_amended 0
  exact ⟨h.2.2.2.1 "x" (by decide),
    h.2.2.2.2.2.2.2 (.constInt 1) [.unsupported "Is"] (.cons (.constInt 1) .nil)
      rfl rfl⟩

/-- Claim C8, confirmed.  Across run_iterative_debate, the tracked best
consensus is monotone: after any two prefixes of the later iterations
with i ≤ j, the best consensus recorded after i iterations is at most the
one after j; and an iteration whose consensus is lower than or equal to
the current best leaves the stored best result, best consensus, and best
iteration number untouched (_update_best_result returns the state
unchanged with flag false). -/
theorem C8_best_monotone :
    (∀ (first : IterativeDebateEngine.IterationOutcome)
      (later : List IterativeDebateEngine.IterationOutcome) (i j : Nat), i ≤ j →
      (IterativeDebateEngine.bestAfter first (later.take i)).best_consensus ≤
        (IterativeDebateEngine.bestAfter first (later.take j)).best_consensus) ∧
    (∀ (s : IterativeDebateEngine.BestState)
      (o : IterativeDebateEngine.IterationOutcome),
      o.consensus ≤ s.best_consensus →
      IterativeDebateEngine._update_best_result s o = (s, false)) := by
  constructor
  · intro first later i j hij
    have hsplit : later.take j = later.take i ++ (later.drop i).take (j - i) := by
      conv_lhs => rw [show j = i + (j - i) from (Nat.add_sub_cancel' hij).symm]
      exact List.take_add later i (j - i)
    rw [hsplit]
    unfold IterativeDebateEngine.bestAfter
    rw [List.foldl_append]
    exact bestFold_mono _ _
  · intro s o h
    unfold IterativeDebateEngine._update_best_result
    rw [if_neg (not_lt.mpr h)]

/-- Witness for C8_best_monotone on a concrete three-iteration run with a
regression in iteration 2. -/
theorem C8_best_monotone_witness :
    (IterativeDebateEngine.bestAfter ⟨80, 1, "r1"⟩
      ([⟨70, 2, "r2"⟩, ⟨90, 3, "r3"⟩].take 1)).best_consensus ≤
      (IterativeDebateEngine.bestAfter ⟨80, 1, "r1"⟩
        ([⟨70, 2, "r2"⟩, ⟨90, 3, "r3"⟩].take 2)).best_consensus ∧
    IterativeDebateEngine._update_best_result ⟨"r1", 80, 1⟩ ⟨80, 2, "r2"⟩ =
      (⟨"r1", 80, 1⟩, false) :=
  ⟨C8_best_monotone.1 ⟨80, 1, "r1"⟩ [⟨70, 2, "r2"⟩, ⟨90, 3, "r3"⟩] 1 2 (by decide),
    C8_best_monotone.2 ⟨"r1", 80, 1⟩ ⟨80, 2, "r2"⟩ (by decide)⟩

/-- Claim C9, confirmed.  On the two given inputs with no pattern issues
the fast moderator returns consensus 85, score difference 6, the Strong
Agreement interpretation, the recommendation string carrying the
[PROCEED CONFIDENTLY] tag, a non-empty agreements list, and a
disagreements list containing the "concern" sentence of the second
response; and in general the consensus score is the integer floor of
(s1 + s2) / 2. -/
theorem C9_fast_moderator :
    FastModerator.analyze ⟨88, "Agree on plan. Good approach."⟩
        ⟨82, "Good overall. One concern: missing tests."⟩ [] =
      { consensus_score := 85, interpretation := "Strong Agreement",
        recommendation := "[PROCEED CONFIDENTLY] Strong consensus",
        score_difference := 6,
        disagreements := [("Codex", "One concern: missing tests")],
        agreements := ["Agree on plan", "Good approach", "Good overall"] } ∧
    strStartsWith "[PROCEED CONFIDENTLY] Strong consensus" "[PROCEED CONFIDENTLY]" = true ∧
    (FastModerator.analyze ⟨88, "Agree on plan. Good approach."⟩
      ⟨82, "Good overall. One concern: missing tests."⟩ []).agreements ≠ [] ∧
    (FastModerator.analyze ⟨88, "Agree on plan. Good approach."⟩
      ⟨82, "Good overall. One concern: missing tests."⟩ []).disagreements.contains
      ("Codex", "One concern: missing tests") = true ∧
    ∀ claude_result codex_result pattern_issues,
      (FastModerator.analyze claude_result codex_result
        pattern_issues).consensus_score =
        (claude_result.score + codex_result.score) / 2 := by
  refine ⟨by decide, by decide, by decide, by decide,
    fun claude_result codex_result pattern_issues => rfl⟩

set_option maxRecDepth 8192 in
/-- The boundary scenario: a 122-character two-line plan whose second
line changes has change percentage exactly 50 (one matching line out of
two on each side gives ratio 2 times 1 over 4; every value involved is
dyadic, so Python float arithmetic is exact here too). -/
theorem change_pct_at_boundary :
    PlanReviser._calculate_change_percentage
      ((String.mk (List.replicate 120 'a')) ++ "\nb")
      ((String.mk (List.replicate 120 'a')) ++ "\nc") = 50 := by
  have hs1 : PlanReviser.splitlines ((String.mk (List.replicate 120 'a')) ++ "\nb") =
      [String.mk (List.replicate 120 'a'), "b"] := by decide
  have hs2 : PlanReviser.splitlines ((String.mk (List.replicate 120 'a')) ++ "\nc") =
      [String.mk (List.replicate 120 'a'), "c"] := by decide
  have hmt : PlanReviser.matchTotal
      [String.mk (List.replicate 120 'a'), "b"]
      [String.mk (List.replicate 120 'a'), "c"] 5 0 2 0 2 = 1 := by decide
  unfold PlanReviser._calculate_change_percentage PlanReviser.ratio
  rw [hs1, hs2]
  simp only [List.length_cons, List.length_nil]
  norm_num [hmt]

set_option maxRecDepth 8192 in
/-- In the boundary scenario the validator accepts the revision. -/
theorem validate_at_boundary :
    PlanReviser._validate_revision
      ((String.mk (List.replicate 120 'a')) ++ "\nb")
      ((String.mk (List.replicate 120 'a')) ++ "\nc") = (true, "") := by
  unfold PlanReviser._validate_revision
  rw [change_pct_at_boundary]
  rw [if_neg (by decide), if_neg (by decide), if_neg (by norm_num),
    if_neg (by norm_num)]

/-- Claim C7, counterexample.  A 122-character two-line plan whose second
line changes has similarity ratio exactly 1/2 and change percentage
exactly 50 (both dyadic, so Python float arithmetic is exact here); the
validator accepts it, yet 50 lies outside the claimed change interval
[1%, 50%).  (The claim's two bounds also contradict each other: r below
0.99 would put the change strictly above 1%, not at least 1%.) -/
theorem C7_counterexample :
    (PlanReviser._validate_revision
      ((String.mk (List.replicate 120 'a')) ++ "\nb")
      ((String.mk (List.replicate 120 'a')) ++ "\nc")).fst = true ∧
    PlanReviser._calculate_change_percentage
      ((String.mk (List.replicate 120 'a')) ++ "\nb")
      ((String.mk (List.replicate 120 'a')) ++ "\nc") = 50 ∧
    ¬ PlanReviser._calculate_change_percentage
      ((String.mk (List.replicate 120 'a')) ++ "\nb")
      ((String.mk (List.replicate 120 'a')) ++ "\nc") < 50 := by
  refine ⟨by rw [validate_at_boundary], change_pct_at_boundary, ?_⟩
  rw [change_pct_at_boundary]
  norm_num

/-- Claim C7, amended.  A revision is accepted by _validate_revision
exactly when it is at least 100 characters, differs from the original,
and its change percentage c = (1 - r) * 100 lies in the closed interval
[1, 50]; equivalently the accepted difflib ratio r satisfies
1/2 <= r <= 99/100, both boundaries included.  Shorter, identical, or
out-of-bounds revisions are rejected with the corresponding reason. -/
theorem C7_amended :
    ∀ original revised : String,
      ((PlanReviser._validate_revision original revised).fst = true ↔
        (100 ≤ revised.length ∧ revised ≠ original ∧
          1 ≤ PlanReviser._calculate_change_percentage original revised ∧
          PlanReviser._calculate_change_percentage original revised ≤ 50)) ∧
      ((PlanReviser._validate_revision original revised).fst = true →
        1/2 ≤ PlanReviser.ratio (PlanReviser.splitlines original)
          (PlanReviser.splitlines revised) ∧
        PlanReviser.ratio (PlanReviser.splitlines original)
          (PlanReviser.splitlines revised) ≤ 99/100) := by
  intro original revised
  have hiff : (PlanReviser._validate_revision original revised).fst = true ↔
      (100 ≤ revised.length ∧ revised ≠ original ∧
        1 ≤ PlanReviser._calculate_change_percentage original revised ∧
        PlanReviser._calculate_change_percentage original revised ≤ 50) := by
    unfold PlanReviser._validate_revision
    split_ifs with h1 h2 h3 h4
    · simp only [Bool.false_eq_true, false_iff]
      rintro ⟨hlen, -, -, -⟩
      rcases h1 with h1 | h1
      · rw [h1] at hlen
        simp at hlen
      · omega
    · simp only [Bool.false_eq_true, false_iff]
      rintro ⟨-, hne, -, -⟩
      exact hne h2
    · simp only [Bool.false_eq_true, false_iff]
      rintro ⟨-, -, hc1, -⟩
      exact absurd h3 (not_lt.mpr hc1)
    · simp only [Bool.false_eq_true, false_iff]
      rintro ⟨-, -, -, hc2⟩
      exact absurd h4 (not_lt.mpr hc2)
    · simp only [true_iff]
      push_neg at h1
      exact ⟨by omega, h2, le_of_not_lt h3, le_of_not_lt h4⟩
  refine ⟨hiff, fun hv => ?_⟩
  obtain ⟨-, -, hc1, hc2⟩ := hiff.mp hv
  unfold PlanReviser._calculate_change_percentage at hc1 hc2
  constructor
  · nlinarith [hc2]
  · nlinarith [hc1]

/-- Witness for C7_amended: the concrete accepted revision of
C7's scenario has its ratio inside the closed interval. -/
theorem C7_amended_witness :
    1/2 ≤ PlanReviser.ratio
      (PlanReviser.splitlines ((String.mk (List.replicate 120 'a')) ++ "\nb"))
      (PlanReviser.splitlines ((String.mk (List.replicate 120 'a')) ++ "\nc")) ∧
    PlanReviser.ratio
      (PlanReviser.splitlines ((String.mk (List.replicate 120 'a')) ++ "\nb"))
      (PlanReviser.splitlines ((String.mk (List.replicate 120 'a')) ++ "\nc")) ≤ 99/100 :=
  (C7_amended ((String.mk (List.replicate 120 'a')) ++ "\nb")
    ((String.mk (List.replicate 120 'a')) ++ "\nc")).2 (by rw [validate_at_boundary])

/-- Witness for C1_amended at a concrete successful input. -/
theorem C1_amended_witness :
    (∃ sv iv ev,
      PriorityScorer.SEVERITY_SCORES (pyLower "critical") = some sv ∧
      PriorityScorer.IMPACT_SCORES (pyLower "high") = some iv ∧
      PriorityScorer.EFFORT_PENALTY (pyLower "low") = some ev ∧
      (80 : Int) = sv + iv + ev ∧ (80 : Int) = max 0 (min 100 (sv + iv + ev))) ∧
    (0 : Int) ≤ 80 ∧ (80 : Int) ≤ 100 ∧ "🟠 HIGH" = PriorityScorer.labelBandsSpec 80 :=
  C1_amended.2.2.2 "critical" "high" "low" 80 "🟠 HIGH" (by decide)
